import Mathlib

/-!
Verification development for the x-mcp-server repository (src/index.ts).

The file shallowly embeds the three cores of the program:
  * media upload validation (`uploadImage`, `uploadVideo`),
  * the per-endpoint rate limiter (`withRateLimit`, `rateLimitResets`),
  * the four tool handlers (`createTweet`, `replyToTweet`,
    `getHomeTimeline`, `deleteTweet`).

Filesystem and remote-client interactions are represented by an explicit
environment (`Env`) and by a trace of `Effect`s each handler would perform,
so that temporal statements ("no file I/O happens before the rejection")
become statements about the produced effect list.
-/

namespace XMcp

/-- Result of the `stat` probe on a path: whether the path exists, whether it
is a regular file, and its byte size. -/
structure FileStats where
  present : Bool
  isFile : Bool
  size : Nat
deriving DecidableEq, Repr

/-- The ambient world a handler runs against: the filesystem (what `stat`
returns for each path) and the media id the remote upload endpoint returns
for a successfully uploaded path. -/
structure Env where
  fs : String → FileStats
  uploadId : String → String

/-- Splitting a character list on a separator, mirroring JavaScript's
`String.prototype.split` with a one-character separator (an empty final
field after a trailing separator, a single empty field for the empty
string). Defined structurally so concrete paths evaluate in the kernel. -/
def splitOnChar (sep : Char) : List Char → List (List Char)
  | [] => [[]]
  | c :: cs =>
    let r := splitOnChar sep cs
    if c = sep then [] :: r
    else
      match r with
      | [] => [[c]]
      | h :: t => (c :: h) :: t

/-- `basename` from node's path module: the last `/`-separated component. -/
def basename (p : String) : String :=
  String.mk ((splitOnChar '/' p.toList).getLastD p.toList)

/-- Extension detection from src/index.ts line 41 and line 88:
`sanitizedPath.toLowerCase().split('.').pop()` — lowercase the whole path,
split on every dot, take the last piece (for a dotless path this is the
whole lowered path, which never matches a table key since resolved paths
contain a slash). -/
def extOf (p : String) : String :=
  String.mk ((splitOnChar '.' (p.toList.map Char.toLower)).getLastD [])

/-- The image mime table of src/index.ts lines 42-48. -/
def imageMimeTypes : String → Option String
  | "png" => some "image/png"
  | "jpg" => some "image/jpeg"
  | "jpeg" => some "image/jpeg"
  | "gif" => some "image/gif"
  | "webp" => some "image/webp"
  | _ => none

/-- `Object.keys` of the image mime table, in insertion order. -/
def imageSupportedKeys : List String := ["png", "jpg", "jpeg", "gif", "webp"]

/-- The video mime table of src/index.ts lines 89-95. -/
def videoMimeTypes : String → Option String
  | "mp4" => some "video/mp4"
  | "mov" => some "video/quicktime"
  | "avi" => some "video/x-msvideo"
  | "webm" => some "video/webm"
  | "m4v" => some "video/x-m4v"
  | _ => none

/-- `Object.keys` of the video mime table, in insertion order. -/
def videoSupportedKeys : List String := ["mp4", "mov", "avi", "webm", "m4v"]

/-- What a JavaScript property read `mimeTypes[ext]` can produce on a plain
object literal: an own property (a mime string of the table), or a truthy
member inherited from `Object.prototype` via the prototype chain. -/
inductive MimeValue where
  | str (s : String)
  | inheritedObject (name : String)
deriving DecidableEq, Repr

/-- Whether a property read on a plain object literal falls through to a
truthy member of `Object.prototype`. The extension has been lowercased, so
of the inherited member names exactly the all-lowercase ones are reachable:
`constructor` (the `Object` function) and `__proto__` (the prototype
object); the camel-cased ones (`hasOwnProperty`, `toString`, `valueOf`,
`__defineGetter__`, ...) can never match a lowercased key. Both reachable
values are truthy, so they pass the source's `!mimeTypes[ext]` guard. -/
def objectPrototypeHit (key : String) : Bool :=
  key == "constructor" || key == "__proto__"

/-- The runtime value of `mimeTypes[ext]` for the image table: own property
first, else the `Object.prototype` chain, else `undefined` (`none`). The
guard `!ext || !mimeTypes[ext]` throws exactly when this is `none`: an
empty extension is not an own key and not an inherited name, and every
`some` value here is truthy. -/
def imageMimeLookup (key : String) : Option MimeValue :=
  match imageMimeTypes key with
  | some m => some (.str m)
  | none => if objectPrototypeHit key then some (.inheritedObject key) else none

/-- The runtime value of `mimeTypes[ext]` for the video table, with the same
prototype-chain fallthrough as `imageMimeLookup`. -/
def videoMimeLookup (key : String) : Option MimeValue :=
  match videoMimeTypes key with
  | some m => some (.str m)
  | none => if objectPrototypeHit key then some (.inheritedObject key) else none

/-- The four validation failures of the upload helpers, kept structured; the
size overrun carries the observed byte size (the source renders it in MB). -/
inductive MediaError where
  | fileNotFound (name : String)
  | notAFile (name : String)
  | tooLarge (sizeBytes : Nat)
  | unsupportedFormat (message : String)
deriving DecidableEq, Repr

/-- Observable side effects of a handler: filesystem probes, file reads,
media uploads and remote API calls, in program order. -/
inductive Effect where
  | statFile (path : String)
  | readFileBytes (path : String)
  | uploadImageMedia (path : String) (mimeType : MimeValue)
  | uploadVideoMedia (path : String) (mimeType : MimeValue) (longVideo : Bool)
  | remoteTweet (text : String) (mediaId : Option String)
  | remoteReply (text : String) (tweetId : String) (mediaId : Option String)
  | remoteTimeline (maxResults : Nat)
  | remoteDelete (tweetId : String)
deriving DecidableEq, Repr

/-- `uploadImage` of src/index.ts lines 17-61: stat the path, reject a
missing path, a non-file, a size above 5 MiB, then apply the guard
`!ext || !mimeTypes[ext]` (exactly in that order). The guard tests the
truthiness of a JS property read, which traverses the prototype chain: an
extension that is an own key of the table or an all-lowercase inherited
member of `Object.prototype` passes, and the file is read and uploaded
with whatever value the read produced; only a falsy read (empty extension
or `undefined`) throws the unsupported-format error. -/
def uploadImage (env : Env) (path : String) : List Effect × Except MediaError String :=
  let fileStats := env.fs path
  if fileStats.present = false then
    ([.statFile path], .error (.fileNotFound (basename path)))
  else if fileStats.isFile = false then
    ([.statFile path], .error (.notAFile (basename path)))
  else if 5 * 1024 * 1024 < fileStats.size then
    ([.statFile path], .error (.tooLarge fileStats.size))
  else
    match imageMimeLookup (extOf path) with
    | none =>
      ([.statFile path],
       .error (.unsupportedFormat
         ("Unsupported file format. Supported formats: " ++
          String.intercalate ", " imageSupportedKeys)))
    | some mimeType =>
      ([.statFile path, .readFileBytes path, .uploadImageMedia path mimeType],
       .ok (env.uploadId path))

/-- `uploadVideo` of src/index.ts lines 64-115: same shape as `uploadImage`
with a 512 MiB ceiling, the video table (with the same prototype-chain
behaviour of the `!ext || !mimeTypes[ext]` guard), and a long-video flag
when the size exceeds 15 MiB. -/
def uploadVideo (env : Env) (path : String) : List Effect × Except MediaError String :=
  let fileStats := env.fs path
  if fileStats.present = false then
    ([.statFile path], .error (.fileNotFound (basename path)))
  else if fileStats.isFile = false then
    ([.statFile path], .error (.notAFile (basename path)))
  else if 512 * 1024 * 1024 < fileStats.size then
    ([.statFile path], .error (.tooLarge fileStats.size))
  else
    match videoMimeLookup (extOf path) with
    | none =>
      ([.statFile path],
       .error (.unsupportedFormat
         ("Unsupported video format. Supported formats: " ++
          String.intercalate ", " videoSupportedKeys)))
    | some mimeType =>
      ([.statFile path, .readFileBytes path,
        .uploadVideoMedia path mimeType (15 * 1024 * 1024 < fileStats.size)],
       .ok (env.uploadId path))

/-- Renders bytes as MB with two decimals, modelling the source's
`(size / 1024 / 1024).toFixed(2)` by exact rational rounding half up (the
double rounding of the float version can differ only on representation
edge cases; no claim depends on this text). -/
def mbTwoDecimals (sizeBytes : Nat) : String :=
  let cents := (sizeBytes * 100 + 524288) / 1048576
  toString (cents / 100) ++ "." ++
    (if cents % 100 < 10 then "0" else "") ++ toString (cents % 100)

/-- The message `uploadImage` attaches to each failure (src/index.ts lines
26, 31, 37, 53). -/
def renderImageMediaError : MediaError → String
  | .fileNotFound n => "File not found: " ++ n
  | .notAFile n => "Path is not a file: " ++ n
  | .tooLarge s => "File size exceeds 5MB limit (" ++ mbTwoDecimals s ++ "MB)"
  | .unsupportedFormat m => m

/-- The message `uploadVideo` attaches to each failure (src/index.ts lines
73, 78, 84, 100). -/
def renderVideoMediaError : MediaError → String
  | .fileNotFound n => "File not found: " ++ n
  | .notAFile n => "Path is not a file: " ++ n
  | .tooLarge s => "Video size exceeds 512MB limit (" ++ mbTwoDecimals s ++ "MB)"
  | .unsupportedFormat m => m

/-- The MCP error codes the program uses. -/
inductive ErrorCode where
  | invalidRequest
  | methodNotFound
  | internalError
deriving DecidableEq, Repr

/-- Outcome of one tool invocation: the shaped success response or a thrown
`McpError`. -/
inductive ToolOutcome where
  | posted (text : String) (mediaId : Option String)
  | replied (text : String) (tweetId : String) (mediaId : Option String)
  | timeline (maxResults : Nat)
  | deleted (tweetId : String)
  | mcpErr (code : ErrorCode) (message : String)
deriving DecidableEq, Repr

/-- JavaScript truthiness of an optional string argument: absent and the
empty string are falsy, every other string is truthy. This is what the
source's `if (image_path && video_path)` and `if (image_path)` tests
evaluate. -/
def truthy : Option String → Bool
  | none => false
  | some s => s != ""

/-- The advertised input-schema bound on tweet text
(src/index.ts line 215, `maxLength: 280`); declared to the client in the
tool listing, not enforced by the call handler. -/
def createTweetTextMaxLength : Nat := 280

/-- The advertised input-schema bound on reply text (src/index.ts line 242). -/
def replyTextMaxLength : Nat := 280

/-- The `create_tweet` handler (src/index.ts lines 295-350): reject
truthy image and video paths together; else upload the one truthy
attachment, wrapping an upload failure as an invalid-request error; then
post the tweet, attaching the media id when it is truthy
(`mediaId ? tweet({text, media}) : tweet(text)`). -/
def createTweet (env : Env) (text : String) (image_path video_path : Option String) :
    List Effect × ToolOutcome :=
  if truthy image_path && truthy video_path then
    ([], .mcpErr .invalidRequest
      "Cannot attach both image and video to the same tweet. Please provide only one.")
  else if truthy image_path then
    match uploadImage env (image_path.getD "") with
    | (effects, .error e) =>
      (effects, .mcpErr .invalidRequest ("Failed to upload image: " ++ renderImageMediaError e))
    | (effects, .ok mediaId) =>
      let m := if mediaId = "" then none else some mediaId
      (effects ++ [.remoteTweet text m], .posted text m)
  else if truthy video_path then
    match uploadVideo env (video_path.getD "") with
    | (effects, .error e) =>
      (effects, .mcpErr .invalidRequest ("Failed to upload video: " ++ renderVideoMediaError e))
    | (effects, .ok mediaId) =>
      let m := if mediaId = "" then none else some mediaId
      (effects ++ [.remoteTweet text m], .posted text m)
  else
    ([.remoteTweet text none], .posted text none)

/-- The `reply_to_tweet` handler (src/index.ts lines 352-408), same shape as
`createTweet`; the remote call is `v2.tweet({text, reply, media})` with a
truthy media id and `v2.reply(text, tweet_id)` without, both modelled as one
`remoteReply` effect carrying the payload. -/
def replyToTweet (env : Env) (tweet_id text : String) (image_path video_path : Option String) :
    List Effect × ToolOutcome :=
  if truthy image_path && truthy video_path then
    ([], .mcpErr .invalidRequest
      "Cannot attach both image and video to the same reply. Please provide only one.")
  else if truthy image_path then
    match uploadImage env (image_path.getD "") with
    | (effects, .error e) =>
      (effects, .mcpErr .invalidRequest ("Failed to upload image: " ++ renderImageMediaError e))
    | (effects, .ok mediaId) =>
      let m := if mediaId = "" then none else some mediaId
      (effects ++ [.remoteReply text tweet_id m], .replied text tweet_id m)
  else if truthy video_path then
    match uploadVideo env (video_path.getD "") with
    | (effects, .error e) =>
      (effects, .mcpErr .invalidRequest ("Failed to upload video: " ++ renderVideoMediaError e))
    | (effects, .ok mediaId) =>
      let m := if mediaId = "" then none else some mediaId
      (effects ++ [.remoteReply text tweet_id m], .replied text tweet_id m)
  else
    ([.remoteReply text tweet_id none], .replied text tweet_id none)

/-- The `get_home_timeline` handler (src/index.ts lines 276-293):
`const { limit = 20 } = args` then a remote fetch with
`max_results: Math.min(limit, 5)`. -/
def getHomeTimeline (limit : Option Nat) : List Effect × ToolOutcome :=
  let l := limit.getD 20
  ([.remoteTimeline (min l 5)], .timeline (min l 5))

/-- The `delete_tweet` handler (src/index.ts lines 410-422). -/
def deleteTweet (tweet_id : String) : List Effect × ToolOutcome :=
  ([.remoteDelete tweet_id], .deleted tweet_id)

/-- The four endpoint groups tracked by the rate limiter
(src/index.ts lines 118-123). -/
inductive Endpoint where
  | home
  | tweet
  | reply
  | delete
deriving DecidableEq, Repr

/-- Endpoint group names as interpolated into the rate-limit message. -/
def endpointName : Endpoint → String
  | .home => "home"
  | .tweet => "tweet"
  | .reply => "reply"
  | .delete => "delete"

/-- The `rateLimitResets` map: per-group not-usable-before instant in
milliseconds since epoch. -/
def RateLimitState : Type := Endpoint → Nat

/-- Initial value of `rateLimitResets` (src/index.ts lines 118-123): every
group starts at 0. -/
def rateLimitResets : RateLimitState := fun _ => 0

/-- `rateLimitResets[endpoint] = t`. -/
def setReset (st : RateLimitState) (ep : Endpoint) (t : Nat) : RateLimitState :=
  fun e => if e = ep then t else st e

/-- The wait the limiter performs before running the operation
(src/index.ts lines 130-133): when `now < resetTime`, sleep
`resetTime - now + 1000` milliseconds (one second of buffer); else none. -/
def waitMs (st : RateLimitState) (ep : Endpoint) (now : Nat) : Nat :=
  if now < st ep then st ep - now + 1000 else 0

/-- What the wrapped operation did: resolve with a value, or reject with an
error object carrying an optional numeric `code` and a message. -/
inductive OpOutcome (α : Type) where
  | success (v : α)
  | failure (code : Option Int) (msg : String)
deriving DecidableEq, Repr

/-- What `withRateLimit` itself does: return the value, throw a fresh
`McpError`, or rethrow the original error object unchanged. -/
inductive RLResult (α : Type) where
  | ok (v : α)
  | mcpError (code : ErrorCode) (message : String)
  | raw (code : Option Int) (message : String)
deriving DecidableEq, Repr

/-- `withRateLimit` of src/index.ts lines 126-151. `tEntry` is the single
`const now = Date.now()` the source captures at entry; `tDone` is the
real-world instant at which the awaited operation settled. The source never
reads the clock again, so `tDone` does not occur in the body: both state
updates use `tEntry` (`now + (15 * 60 * 1000)` on lines 138 and 143). A
429-coded failure becomes an `McpError(InvalidRequest, ...)` naming the
group; any other failure is rethrown as-is with the state untouched. -/
def withRateLimit {α : Type} (endpoint : Endpoint) (st : RateLimitState)
    (tEntry tDone : Nat) (outcome : OpOutcome α) : RLResult α × RateLimitState :=
  match outcome with
  | .success v =>
    (.ok v, setReset st endpoint (tEntry + 15 * 60 * 1000))
  | .failure code msg =>
    if code = some 429 then
      (.mcpError .invalidRequest
        ("Rate limit exceeded for " ++ endpointName endpoint ++
         ". Please try again in 15 minutes."),
       setReset st endpoint (tEntry + 15 * 60 * 1000))
    else
      (.raw code msg, st)

/-- One call through the rate limiter, for reasoning about sequential call
traces: the group, the entry instant, the settle instant, and how the
wrapped operation ended. -/
structure CallEvent where
  ep : Endpoint
  tEntry : Nat
  tDone : Nat
  outcome : OpOutcome Nat
deriving DecidableEq, Repr

/-- The state after one traced call. -/
def stepState (st : RateLimitState) (c : CallEvent) : RateLimitState :=
  (withRateLimit c.ep st c.tEntry c.tDone c.outcome).2

/-- All intermediate states of a sequential trace, starting state included. -/
def statesFrom (st : RateLimitState) : List CallEvent → List RateLimitState
  | [] => [st]
  | c :: cs => st :: statesFrom (stepState st c) cs

/-- Pointwise order on rate-limit states: no group's instant moved back. -/
def stateLE (s t : RateLimitState) : Prop := ∀ g, s g ≤ t g

/-- Every stored instant is at most `t` plus the 15-minute window; this is
the invariant a trace whose entry times start at or after `t` preserves. -/
def boundedBy (st : RateLimitState) (t : Nat) : Prop :=
  ∀ g, st g ≤ t + 15 * 60 * 1000

/-- A fixed environment for concrete evaluations: an empty filesystem and a
constant remote media id. -/
def env0 : Env :=
  { fs := fun _ => ⟨false, false, 0⟩, uploadId := fun _ => "media-1" }

/-- An environment whose filesystem holds regular files of a given size at
every path. -/
def envFile (size : Nat) : Env :=
  { fs := fun _ => ⟨true, true, size⟩, uploadId := fun _ => "media-1" }

/-- A 281-character text, one character over the advertised 280 bound. -/
def longText : String := String.mk (List.replicate 281 'a')

/-- A concrete two-call trace: a 429-throttled tweet call entering at
instant 0, then a successful tweet call entering at instant 5000. -/
def trW : List CallEvent :=
  [⟨.tweet, 0, 10, .failure (some 429) "Too Many Requests"⟩,
   ⟨.tweet, 5000, 5100, .success 1⟩]

/-- C1: for every endpoint group and every operation failing with numeric
code 429, `withRateLimit` fails with an invalid-request `McpError` whose
message names the group and the fixed 15-minute retry window, and sets the
group's not-usable-before instant to the call's entry instant plus
15 minutes. -/
theorem withRateLimit_429_throttles (ep : Endpoint) (st : RateLimitState)
    (tEntry tDone : Nat) (msg : String) :
    (withRateLimit (α := Nat) ep st tEntry tDone (.failure (some 429) msg)).1
      = .mcpError .invalidRequest
          ("Rate limit exceeded for " ++ endpointName ep ++
           ". Please try again in 15 minutes.") ∧
    (withRateLimit (α := Nat) ep st tEntry tDone (.failure (some 429) msg)).2 ep
      = tEntry + 15 * 60 * 1000 := by
  constructor <;> simp [withRateLimit, setReset]

/-- C2: for every endpoint group and every operation failing with an error
not carrying code 429, `withRateLimit` rethrows the very same error (same
code and message) and returns the rate-limit state exactly as it was. -/
theorem withRateLimit_non429_propagates (ep : Endpoint) (st : RateLimitState)
    (tEntry tDone : Nat) (code : Option Int) (msg : String)
    (h : code ≠ some 429) :
    withRateLimit (α := Nat) ep st tEntry tDone (.failure code msg)
      = (.raw code msg, st) := by
  simp [withRateLimit, h]

/-- Witness for C2 at a concrete non-429 failure. -/
theorem withRateLimit_non429_propagates_witness :
    (some (500 : Int) ≠ some (429 : Int)) ∧
    withRateLimit (α := Nat) .tweet rateLimitResets 0 0 (.failure (some 500) "boom")
      = (.raw (some 500) "boom", rateLimitResets) :=
  ⟨by decide,
   withRateLimit_non429_propagates .tweet rateLimitResets 0 0 (some 500) "boom" (by decide)⟩

/-- C3 counterexample: a call entering at instant 0 whose operation succeeds
at instant 1000 does not set the group's reset instant to the success time
plus 15 minutes — the source stamps from the entry time it captured before
awaiting the operation. -/
theorem withRateLimit_success_stamp_cx :
    (withRateLimit (α := Nat) .home rateLimitResets 0 1000 (.success 0)).2 .home
      ≠ 1000 + 15 * 60 * 1000 := by
  simp [withRateLimit, setReset, rateLimitResets]

/-- C3 (amended): on success `withRateLimit` returns the operation's value
and sets the group's not-usable-before instant to tEntry + 15 minutes,
where tEntry is the instant captured when `withRateLimit` was entered
(before any throttle wait and before the operation ran), unconditionally
after every success and independently of the settle instant `tDone`. -/
theorem withRateLimit_success_stamps_entry (ep : Endpoint) (st : RateLimitState)
    (tEntry tDone : Nat) (v : Nat) :
    (withRateLimit (α := Nat) ep st tEntry tDone (.success v)).1 = .ok v ∧
    (withRateLimit (α := Nat) ep st tEntry tDone (.success v)).2
      = setReset st ep (tEntry + 15 * 60 * 1000) ∧
    (withRateLimit (α := Nat) ep st tEntry tDone (.success v)).2 ep
      = tEntry + 15 * 60 * 1000 := by
  refine ⟨rfl, rfl, ?_⟩
  simp [withRateLimit, setReset]

/-- C4: the home-timeline fetch always requests `min (limit or default 20) 5`
results, hence never more than 5, and in particular a requested limit of 100
is clamped to 5. -/
theorem getHomeTimeline_clamps_to_5 (limit : Option Nat) :
    (getHomeTimeline limit).1 = [.remoteTimeline (min (limit.getD 20) 5)] ∧
    min (limit.getD 20) 5 ≤ 5 ∧
    (getHomeTimeline (some 100)).1 = [.remoteTimeline 5] ∧
    (getHomeTimeline none).1 = [.remoteTimeline 5] :=
  ⟨rfl, Nat.min_le_right _ _, by decide, by decide⟩

set_option maxRecDepth 4096 in
/-- C5 counterexample: a 281-character tweet text with no attachments is not
rejected — the handler performs no length validation and issues the remote
tweet call carrying the over-long text. -/
theorem createTweet_overlong_text_cx :
    280 < longText.length ∧
    createTweet env0 longText none none
      = ([.remoteTweet longText none], .posted longText none) :=
  ⟨by decide, rfl⟩

/-- C5 (amended): the 280-character bound exists only in the advertised
input schema (`maxLength: 280`); the `create_tweet` and `reply_to_tweet`
handlers perform no text-length check, so a text of any length is passed
to the remote client unchanged. -/
theorem createTweet_text_length_unchecked (env : Env) (text tid : String) :
    createTweetTextMaxLength = 280 ∧
    replyTextMaxLength = 280 ∧
    createTweet env text none none = ([.remoteTweet text none], .posted text none) ∧
    replyToTweet env tid text none none
      = ([.remoteReply text tid none], .replied text tid none) :=
  ⟨rfl, rfl, rfl, rfl⟩

/-- C7: when both attachment paths are supplied truthy (non-empty), both
handlers fail with the invalid-request mutual-exclusion error having
performed no effect at all: no stat, no read, no upload, no remote call. -/
theorem bothAttachments_rejected_before_io (env : Env) (text tid : String)
    (ip vp : Option String) (hi : truthy ip = true) (hv : truthy vp = true) :
    createTweet env text ip vp
      = ([], .mcpErr .invalidRequest
          "Cannot attach both image and video to the same tweet. Please provide only one.") ∧
    replyToTweet env tid text ip vp
      = ([], .mcpErr .invalidRequest
          "Cannot attach both image and video to the same reply. Please provide only one.") := by
  constructor <;> simp [createTweet, replyToTweet, hi, hv]

/-- Witness for C7 with concrete non-empty image and video paths. -/
theorem bothAttachments_rejected_before_io_witness :
    truthy (some "/a/pic.png") = true ∧
    truthy (some "/a/vid.mp4") = true ∧
    (createTweet env0 "hi" (some "/a/pic.png") (some "/a/vid.mp4")
      = ([], .mcpErr .invalidRequest
          "Cannot attach both image and video to the same tweet. Please provide only one.") ∧
     replyToTweet env0 "42" "hi" (some "/a/pic.png") (some "/a/vid.mp4")
      = ([], .mcpErr .invalidRequest
          "Cannot attach both image and video to the same reply. Please provide only one.")) :=
  ⟨by decide, by decide,
   bothAttachments_rejected_before_io env0 "hi" "42" _ _ (by decide) (by decide)⟩

/-- C10: an empty-string attachment path is falsy, so it behaves exactly as
an absent argument in both handlers: the mutual-exclusion check does not
fire, no upload is attempted for the empty path, and the action proceeds
with only the other attachment. -/
theorem emptyAttachment_treated_absent (env : Env) (text tid : String)
    (ip vp : Option String) :
    truthy (some "") = false ∧
    createTweet env text (some "") vp = createTweet env text none vp ∧
    createTweet env text ip (some "") = createTweet env text ip none ∧
    replyToTweet env tid text (some "") vp = replyToTweet env tid text none vp ∧
    replyToTweet env tid text ip (some "") = replyToTweet env tid text ip none := by
  refine ⟨rfl, rfl, ?_, rfl, ?_⟩ <;>
    cases h : truthy ip <;> simp [createTweet, replyToTweet, truthy, h]

/-- C8: for an existing regular file of size at most 5 MiB whose lowercased
extension maps in the image table, validation succeeds, the upload is
performed with exactly the mapped content type, and the table maps
png to image/png, jpg and jpeg to image/jpeg, gif to image/gif and webp to
image/webp. -/
theorem uploadImage_supported_ok (env : Env) (p m : String)
    (h1 : (env.fs p).present = true) (h2 : (env.fs p).isFile = true)
    (h3 : (env.fs p).size ≤ 5 * 1024 * 1024)
    (hm : imageMimeTypes (extOf p) = some m) :
    (uploadImage env p).2 = .ok (env.uploadId p) ∧
    (uploadImage env p).1 = [.statFile p, .readFileBytes p, .uploadImageMedia p (.str m)] ∧
    imageMimeTypes "png" = some "image/png" ∧
    imageMimeTypes "jpg" = some "image/jpeg" ∧
    imageMimeTypes "jpeg" = some "image/jpeg" ∧
    imageMimeTypes "gif" = some "image/gif" ∧
    imageMimeTypes "webp" = some "image/webp" := by
  have hns : ¬ (5 * 1024 * 1024 < (env.fs p).size) := by omega
  refine ⟨?_, ?_, rfl, rfl, rfl, rfl, rfl⟩ <;>
    simp [uploadImage, imageMimeLookup, h1, h2, hns, hm]

/-- Witness for C8 on a concrete png file of 100 bytes. -/
theorem uploadImage_supported_ok_witness :
    ((envFile 100).fs "/tmp/pic.png").present = true ∧
    ((envFile 100).fs "/tmp/pic.png").isFile = true ∧
    ((envFile 100).fs "/tmp/pic.png").size ≤ 5 * 1024 * 1024 ∧
    imageMimeTypes (extOf "/tmp/pic.png") = some "image/png" ∧
    ((uploadImage (envFile 100) "/tmp/pic.png").2
        = .ok ((envFile 100).uploadId "/tmp/pic.png") ∧
     (uploadImage (envFile 100) "/tmp/pic.png").1
        = [.statFile "/tmp/pic.png", .readFileBytes "/tmp/pic.png",
           .uploadImageMedia "/tmp/pic.png" (.str "image/png")] ∧
     imageMimeTypes "png" = some "image/png" ∧
     imageMimeTypes "jpg" = some "image/jpeg" ∧
     imageMimeTypes "jpeg" = some "image/jpeg" ∧
     imageMimeTypes "gif" = some "image/gif" ∧
     imageMimeTypes "webp" = some "image/webp") :=
  ⟨rfl, rfl, by decide, by decide,
   uploadImage_supported_ok (envFile 100) "/tmp/pic.png" "image/png"
     rfl rfl (by decide) (by decide)⟩

/-- C9: the claim fails on the code at the concrete input
`/tmp/x.constructor` (an existing 100-byte regular file). Its lowercased
extension `constructor` is outside both tables, yet the source's guard
`!mimeTypes[ext]` reads the truthy inherited `Object.prototype.constructor`
through the prototype chain, so instead of failing with the
unsupported-format error the program reads the file and calls the upload
with the inherited value as content type; the same happens for
`uploadVideo`, and for the other reachable inherited name `__proto__`. -/
theorem upload_prototype_chain_leak :
    imageMimeTypes "constructor" = none ∧
    videoMimeTypes "constructor" = none ∧
    imageMimeTypes "__proto__" = none ∧
    videoMimeTypes "__proto__" = none ∧
    extOf "/tmp/x.constructor" = "constructor" ∧
    uploadImage (envFile 100) "/tmp/x.constructor"
      = ([.statFile "/tmp/x.constructor", .readFileBytes "/tmp/x.constructor",
          .uploadImageMedia "/tmp/x.constructor" (.inheritedObject "constructor")],
         .ok "media-1") ∧
    uploadVideo (envFile 100) "/tmp/x.constructor"
      = ([.statFile "/tmp/x.constructor", .readFileBytes "/tmp/x.constructor",
          .uploadVideoMedia "/tmp/x.constructor" (.inheritedObject "constructor") false],
         .ok "media-1") ∧
    uploadImage (envFile 100) "/tmp/x.__proto__"
      = ([.statFile "/tmp/x.__proto__", .readFileBytes "/tmp/x.__proto__",
          .uploadImageMedia "/tmp/x.__proto__" (.inheritedObject "__proto__")],
         .ok "media-1") :=
  ⟨rfl, rfl, rfl, rfl, by decide, rfl, rfl, rfl⟩

/-- Raising the reset instant of one group never lowers any group's value,
as long as the new value dominates the old one at that group. -/
theorem le_setReset (st : RateLimitState) (ep : Endpoint) (t : Nat)
    (h : st ep ≤ t) : stateLE st (setReset st ep t) := by
  intro g
  unfold setReset
  split
  · next hg => exact hg ▸ h
  · exact le_rfl

/-- One traced call never moves any group's instant backwards, provided
every stored instant is at most the call's entry time plus the window. -/
theorem stepState_le (st : RateLimitState) (c : CallEvent)
    (h : boundedBy st c.tEntry) : stateLE st (stepState st c) := by
  unfold stepState
  cases ho : c.outcome with
  | success v =>
    exact le_setReset st c.ep _ (h c.ep)
  | failure code msg =>
    by_cases hc : code = some 429
    · simpa [withRateLimit, hc] using le_setReset st c.ep _ (h c.ep)
    · simp [withRateLimit, hc, stateLE]

/-- After a call, every stored instant is still at most the call's entry
time plus the window, provided it was so before the call. -/
theorem stepState_bounded (st : RateLimitState) (c : CallEvent)
    (h : boundedBy st c.tEntry) : boundedBy (stepState st c) c.tEntry := by
  intro g
  unfold stepState
  cases ho : c.outcome with
  | success v =>
    show setReset st c.ep _ g ≤ _
    unfold setReset
    split
    · exact le_rfl
    · exact h g
  | failure code msg =>
    by_cases hc : code = some 429
    · simp only [withRateLimit, hc, if_pos]
      show setReset st c.ep _ g ≤ _
      unfold setReset
      split
      · exact le_rfl
      · exact h g
    · simp only [withRateLimit, hc, if_neg, not_false_iff]
      exact h g

/-- The value a call stores at a group is the old value or the call's entry
time plus the window. -/
theorem stepState_val (st : RateLimitState) (c : CallEvent) (g : Endpoint) :
    stepState st c g = st g ∨ stepState st c g = c.tEntry + 15 * 60 * 1000 := by
  unfold stepState
  cases ho : c.outcome with
  | success v =>
    show setReset st c.ep _ g = _ ∨ setReset st c.ep _ g = _
    unfold setReset
    split
    · exact Or.inr rfl
    · exact Or.inl rfl
  | failure code msg =>
    by_cases hc : code = some 429
    · simp only [withRateLimit, hc, if_pos]
      show setReset st c.ep _ g = _ ∨ setReset st c.ep _ g = _
      unfold setReset
      split
      · exact Or.inr rfl
      · exact Or.inl rfl
    · simp [withRateLimit, hc]

/-- The state list of a trace always starts with the starting state. -/
theorem statesFrom_head (st : RateLimitState) (tr : List CallEvent) :
    (statesFrom st tr).head? = some st := by
  cases tr <;> rfl

/-- Along a trace with non-decreasing entry times, consecutive states are
pointwise non-decreasing, provided the start state is within the window of
a lower bound of all entry times. -/
theorem statesFrom_chain (tr : List CallEvent) :
    ∀ (st : RateLimitState) (t : Nat), boundedBy st t →
      (∀ c ∈ tr.head?, t ≤ c.tEntry) →
      List.Chain' (fun a b => a.tEntry ≤ b.tEntry) tr →
      List.Chain' stateLE (statesFrom st tr) := by
  induction tr with
  | nil =>
    intro st t _ _ _
    simp [statesFrom]
  | cons c cs ih =>
    intro st t hb hh hc
    have hent : t ≤ c.tEntry := hh c rfl
    have hb' : boundedBy st c.tEntry := fun g => le_trans (hb g) (by omega)
    show List.Chain' stateLE (st :: statesFrom (stepState st c) cs)
    rw [List.chain'_cons']
    refine ⟨?_, ?_⟩
    · intro y hy
      rw [statesFrom_head, Option.mem_some_iff] at hy
      rw [← hy]
      exact stepState_le st c hb'
    · exact ih (stepState st c) c.tEntry (stepState_bounded st c hb')
        (fun c2 h2 => (List.chain'_cons'.mp hc).1 c2 h2)
        (List.chain'_cons'.mp hc).2

/-- Every state reached along a trace holds, at each group, either the
starting value or the entry time of some call of the trace plus the
window. -/
theorem statesFrom_values (tr : List CallEvent) :
    ∀ (st s : RateLimitState), s ∈ statesFrom st tr → ∀ g,
      s g = st g ∨ ∃ c ∈ tr, s g = c.tEntry + 15 * 60 * 1000 := by
  induction tr with
  | nil =>
    intro st s hs g
    simp only [statesFrom, List.mem_singleton] at hs
    exact Or.inl (by rw [hs])
  | cons c cs ih =>
    intro st s hs g
    simp only [statesFrom, List.mem_cons] at hs
    rcases hs with hs | hs
    · exact Or.inl (by rw [hs])
    · rcases ih (stepState st c) s hs g with h1 | ⟨c2, hc2, he⟩
      · rcases stepState_val st c g with h2 | h2
        · exact Or.inl (h1.trans h2)
        · exact Or.inr ⟨c, List.mem_cons_self c cs, h1.trans h2⟩
      · exact Or.inr ⟨c2, List.mem_cons_of_mem c hc2, he⟩

/-- C6: starting from the initial all-zero `rateLimitResets`, along any
sequential trace of `withRateLimit` calls whose entry instants are
non-decreasing, the per-group not-usable-before instants are monotonically
non-decreasing from one state to the next (a successful or 429-throttled
call only pushes a group's instant forward or leaves it equal), and every
stored instant is either 0 (unset) or the entry instant of some call of the
trace plus the 15-minute window. -/
theorem rateLimitResets_monotone (tr : List CallEvent)
    (hc : List.Chain' (fun a b => a.tEntry ≤ b.tEntry) tr) :
    List.Chain' stateLE (statesFrom rateLimitResets tr) ∧
    ∀ s ∈ statesFrom rateLimitResets tr, ∀ g,
      s g = 0 ∨ ∃ c ∈ tr, s g = c.tEntry + 15 * 60 * 1000 := by
  refine ⟨?_, ?_⟩
  · exact statesFrom_chain tr rateLimitResets 0 (fun g => Nat.zero_le _)
      (fun c2 _ => Nat.zero_le _) hc
  · intro s hs g
    rcases statesFrom_values tr rateLimitResets s hs g with h | h
    · exact Or.inl h
    · exact Or.inr h

/-- Witness for C6 on the concrete trace `trW`. -/
theorem rateLimitResets_monotone_witness :
    List.Chain' (fun a b => a.tEntry ≤ b.tEntry) trW ∧
    (List.Chain' stateLE (statesFrom rateLimitResets trW) ∧
     ∀ s ∈ statesFrom rateLimitResets trW, ∀ g,
       s g = 0 ∨ ∃ c ∈ trW, s g = c.tEntry + 15 * 60 * 1000) :=
  ⟨by simp [trW, List.chain'_cons, List.chain'_singleton],
   rateLimitResets_monotone trW (by simp [trW, List.chain'_cons, List.chain'_singleton])⟩

end XMcp
